import Mathlib

/-!
Verification of the generation orchestrator of the ai-commit extension.

JavaScript strings are modelled as `List Char` (`JStr`); the ASCII subset of
the JS whitespace class is used, which covers every string the program builds.
Asynchronous provider calls are modelled as oracles returning `Except`;
`Promise.all` is modelled as a fail-fast sequence in input order.
-/

namespace AICommit

abbrev JStr := List Char

/-- ASCII portion of the JavaScript whitespace class used by `trim` and `\s`. -/
def jsWs (c : Char) : Bool :=
  c == ' ' || c == '\t' || c == '\n' || c == '\r' || c == '\x0b' || c == '\x0c'

/-- Model of `String.prototype.trim`: drop whitespace at both ends. -/
def jsTrim (l : JStr) : JStr :=
  ((l.dropWhile jsWs).reverse.dropWhile jsWs).reverse

/-- `leadsWith pat s` holds when `s` starts with `pat`. -/
def leadsWith : JStr → JStr → Bool
  | [], _ => true
  | _ :: _, [] => false
  | p :: ps, c :: cs => p == c && leadsWith ps cs

/-- Model of `String.prototype.includes`: `pat` occurs somewhere in `s`. -/
def jsIncludes : JStr → JStr → Bool
  | [], pat => pat.isEmpty
  | c :: rest, pat => leadsWith pat (c :: rest) || jsIncludes rest pat

/-- JavaScript `s || d` for strings: the empty string is falsy. -/
def jsStrOr (s d : JStr) : JStr := if s = [] then d else s

/-- JavaScript `c || d` where `c` may be `null`/`undefined` or a string. -/
def jsOrElse (c : Option JStr) (d : JStr) : JStr :=
  match c with
  | none => d
  | some s => jsStrOr s d

/-- The literal placeholder used for unusable responses. -/
def errMsg : JStr := "Error generating message".data

/-- Model of `response.choices[0]!.message?.content?.trim() || errMsg`. -/
def trimOrErr (t : JStr) : JStr := jsStrOr (jsTrim t) errMsg

/-- Same, for a possibly `null` content field. -/
def respTrimOrErr (c : Option JStr) : JStr :=
  match c with
  | none => errMsg
  | some t => trimOrErr t

/-- Model of `split('\n')`: always returns at least one (possibly empty) piece. -/
def splitLines : JStr → List JStr
  | [] => [[]]
  | c :: rest =>
    if c = '\n' then [] :: splitLines rest
    else
      match splitLines rest with
      | [] => [[c]]
      | h :: t => (c :: h) :: t

/-- After the leading digits, is the next character a dot?  Helper for the
regex `/^\d+\./`. -/
def afterDigitsDot : JStr → Bool
  | [] => false
  | c :: rest => if c.isDigit then afterDigitsDot rest else c == '.'

/-- Model of `/^\d+\./.test(l)`: one or more digits then a dot, at the start. -/
def matchNumDot : JStr → Bool
  | [] => false
  | c :: rest => c.isDigit && afterDigitsDot rest

/-- Model of the anchored replace of `/^\d+\.\s*/` by the empty string:
strips the leading number, dot and
following whitespace when the pattern matches at the start, else returns `l`. -/
def stripNumDot (l : JStr) : JStr :=
  if matchNumDot l then ((l.dropWhile Char.isDigit).drop 1).dropWhile jsWs
  else l

/-- The `lines.filter(...).map(...)` part of the numbered-list parser:
keeps lines whose trimmed form matches `/^\d+\./`, then strips + trims each. -/
def numberedCandidates (raw : JStr) : List JStr :=
  ((splitLines (jsTrim raw)).filter (fun l => matchNumDot (jsTrim l))).map
    (fun l => jsTrim (stripNumDot l))

/-- Numbered-list response parsing shared by the three providers:
take at most `count` parsed lines; if fewer than 2 survive, fall back to the
whole trimmed response. -/
def parseNumbered (raw : JStr) (count : Nat) : List JStr :=
  let commitMessages := (numberedCandidates raw).take count
  if 2 ≤ commitMessages.length then commitMessages else [jsTrim raw]

/-- Decimal representation of a count, for interpolation into prompts. -/
def natStr (n : Nat) : JStr := (Nat.repr n).data

/-- Model of `Promise.all`: results in input order; fails with the first
failure (in input order, as a deterministic rendering of fail-fast). -/
def promiseAll {ε α : Type} : List (Except ε α) → Except ε (List α)
  | [] => .ok []
  | x :: xs =>
    match x with
    | .error e => .error e
    | .ok a =>
      match promiseAll xs with
      | .error e => .error e
      | .ok rest => .ok (a :: rest)

/-- The fixed temperature ladder `[0.3, 0.7, 0.9]` of the `temperature`
strategy.  Temperatures are only passed through, never computed with, so ℚ
labels them faithfully. -/
def temperatures : List ℚ := [3/10, 7/10, 9/10]

/-- First fixed style instruction. -/
def styleConcise : JStr := "Generate a concise commit message (max 50 characters)".data

/-- Second fixed style instruction. -/
def styleDetailed : JStr := "Generate a detailed commit message with scope and context".data

/-- Third fixed style instruction. -/
def styleTechnical : JStr := "Generate a technical commit message focusing on implementation details".data

/-- The fixed ordered style list of the `style` strategy. -/
def styleList : List JStr := [styleConcise, styleDetailed, styleTechnical]

/-- The separator inserted before an injected style instruction. -/
def instrSep : JStr := "\n\nAdditional instruction: ".data

/-- A chat turn (OpenAI/Gemini message shape). -/
structure ChatMessage where
  role : JStr
  content : JStr
deriving DecidableEq, Repr

/-- The instruction block appended for the `single_request` strategy by the
OpenAI and Gemini adapters (identical text); the third numbered line is
emitted only when `count > 2`. -/
def multiOptionsTail (count : Nat) : JStr :=
  "\n\nPlease generate ".data ++ natStr count ++
  " different commit message options. Each should be on a separate line numbered 1, 2, 3, etc. Vary the style and approach:\n1. A concise version (max 50 characters)\n2. A detailed version (with scope and context)\n".data ++
  (if 2 < count then "3. A technical version (focusing on implementation details)".data else [])

/-- Model of replacing the last message of the copied array with a clone whose
content carries the appended multi-option instructions. -/
def modifyLastOpenAI (msgs : List ChatMessage) (count : Nat) : List ChatMessage :=
  match msgs.getLast? with
  | none => msgs
  | some last => msgs.dropLast ++ [⟨last.role, last.content ++ multiOptionsTail count⟩]

/-- Content of the first `system` turn, if any (the `find` over roles). -/
def findSystemContent : List ChatMessage → Option JStr
  | [] => none
  | m :: rest => if m.role = "system".data then some m.content else findSystemContent rest

/-- Overwrite the content of the first `system` turn. -/
def setFirstSystemContent : List ChatMessage → JStr → List ChatMessage
  | [], _ => []
  | m :: rest, nc =>
    if m.role = "system".data then ⟨m.role, nc⟩ :: rest
    else m :: setFirstSystemContent rest nc

/-- One iteration of the OpenAI `style` fan-out when a system turn exists.
The source mutates the system-message object that is shared (via the shallow
copy `[...messages]`) by the array of the caller and every per-style copy, so the
accumulated content `acc.2` threads across iterations. -/
def styleStep (msgs : List ChatMessage) (acc : List (List ChatMessage) × JStr)
    (instr : JStr) : List (List ChatMessage) × JStr :=
  let nc := acc.2 ++ instrSep ++ instr
  (acc.1 ++ [setFirstSystemContent msgs nc], nc)

/-- The OpenAI `style` fan-out request derivation.  Returns the conversation
sent by each request (captured at the moment `create` is called) and the
message array of the caller after the loop (mutated when a system turn exists,
untouched when the instruction is prepended as a fresh turn). -/
def styledRequestsOpenAI (msgs : List ChatMessage) (count : Nat) :
    List (List ChatMessage) × List ChatMessage :=
  match findSystemContent msgs with
  | some c0 =>
    let r := (styleList.take count).foldl (styleStep msgs) ([], c0)
    (r.1, setFirstSystemContent msgs r.2)
  | none =>
    ((styleList.take count).map (fun instr => ⟨"system".data, instr⟩ :: msgs), msgs)

/-- An OpenAI chat request: conversation plus temperature; the field
`choices[0]!.message?.content` may be `null`, hence `Option`. -/
abbrev OpenAIOracle (ε : Type) := List ChatMessage → ℚ → Except ε (Option JStr)

/-- Model of `ChatGPTAPI`: one request at the configured temperature,
returning the (possibly null) content. -/
def ChatGPTAPI {ε : Type} (o : OpenAIOracle ε) (cfgTemp : ℚ)
    (msgs : List ChatMessage) : Except ε (Option JStr) :=
  o msgs cfgTemp

/-- The `try` block of `generateMultipleCommitsWithOpenAI`. -/
def openAIMultiTryBlock {ε : Type} (o : OpenAIOracle ε) (cfgTemp : ℚ)
    (msgs : List ChatMessage) (count : Nat) (strategy : JStr) :
    Except ε (List JStr) :=
  if strategy = "single_request".data then
    match o (modifyLastOpenAI msgs count) (7/10) with
    | .error e => .error e
    | .ok c => .ok (parseNumbered (jsOrElse c []) count)
  else if strategy = "temperature".data then
    match promiseAll ((temperatures.take count).map (fun t => o msgs t)) with
    | .error e => .error e
    | .ok rs => .ok (rs.map respTrimOrErr)
  else if strategy = "style".data then
    match promiseAll ((styledRequestsOpenAI msgs count).1.map (fun ms => o ms (7/10))) with
    | .error e => .error e
    | .ok rs => .ok (rs.map respTrimOrErr)
  else
    match ChatGPTAPI o cfgTemp msgs with
    | .error e => .error e
    | .ok c => .ok [jsOrElse c errMsg]

/-- The message array of the caller once the `try` block has run: the `style`
branch has mutated the shared system turn by then. -/
def openAIMessagesAfter (msgs : List ChatMessage) (count : Nat) (strategy : JStr) :
    List ChatMessage :=
  if strategy = "style".data then (styledRequestsOpenAI msgs count).2 else msgs

/-- Model of `generateMultipleCommitsWithOpenAI`: the `try` block, and on any
error one single-message retry whose failure re-raises the original error. -/
def generateMultipleCommitsWithOpenAI {ε : Type} (o : OpenAIOracle ε) (cfgTemp : ℚ)
    (msgs : List ChatMessage) (count : Nat) (strategy : JStr) :
    Except ε (List JStr) :=
  match openAIMultiTryBlock o cfgTemp msgs count strategy with
  | .ok r => .ok r
  | .error e =>
    match ChatGPTAPI o cfgTemp (openAIMessagesAfter msgs count strategy) with
    | .ok c => .ok [jsOrElse c errMsg]
    | .error _ => .error e

/-- First content block of a Claude response (assumed present). -/
inductive ClaudeBlock where
  | text (t : JStr)
  | nonText
deriving DecidableEq, Repr

/-- A JavaScript error value as inspected by the Claude adapter:
optional HTTP status, optional system error code, and a message. -/
structure JsErr where
  status : Option Nat
  code : Option JStr
  message : JStr
deriving DecidableEq, Repr

/-- A Claude request: system prompt, user content and temperature. -/
abbrev ClaudeOracle := JStr → JStr → ℚ → Except JsErr ClaudeBlock

/-- The fixed user turn wrapping the diff for Claude requests. -/
def claudeUserMsg (diff : JStr) : JStr :=
  "Please analyze the following git diff and generate a commit message:\n\n".data ++ diff

/-- The status/code classification of `generateCommitWithClaude`. -/
def classifyClaudeError (e : JsErr) : JStr :=
  if e.status = some 401 then
    "Claude API authentication failed. Please check your API key.".data
  else if e.status = some 429 then
    "Claude API rate limit exceeded. Please try again later.".data
  else if e.status = some 400 then
    "Claude API request was malformed. Please check your configuration.".data
  else if (match e.status with | some n => decide (500 ≤ n) | none => false) then
    "Claude API server error. Please try again later.".data
  else if e.code = some "ENOTFOUND".data || e.code = some "ECONNREFUSED".data then
    "Network error. Please check your internet connection.".data
  else
    "Claude API error: ".data ++ jsStrOr e.message "Unknown error".data

/-- Model of `generateCommitWithClaude`: one request; a non-text block raises
the unexpected-format error inside the same `try`, so every failure leaves as
a classified `new Error(message)`. -/
def generateCommitWithClaude (o : ClaudeOracle) (cfgTemp : ℚ)
    (prompt diff : JStr) : Except JsErr JStr :=
  match o prompt (claudeUserMsg diff) cfgTemp with
  | .ok (.text t) => .ok (jsTrim t)
  | .ok .nonText =>
    .error ⟨none, none,
      classifyClaudeError ⟨none, none, "Unexpected response format from Claude API".data⟩⟩
  | .error e => .error ⟨none, none, classifyClaudeError e⟩

/-- How the Claude fan-outs turn a content block into a candidate: text is
trimmed (with no empty-string fallback), anything else gives the placeholder. -/
def claudeExtract : ClaudeBlock → JStr
  | .text t => jsTrim t
  | .nonText => errMsg

/-- The fixed system prompt of the Claude `single_request` branch. -/
def claudeFixedSystem : JStr :=
  "You are a helpful assistant that generates conventional commit messages.".data

/-- Third-variant instruction text shared by the provider templates. -/
def techText : JStr := "A technical version (focusing on implementation details)".data

/-- The fixed middle section of the Claude `single_request` prompt: note the
numbering `3. ` sits outside the conditional, so it appears for every count. -/
def claudeMultiPromptMid (count : Nat) : JStr :=
  "\n\nPlease generate ".data ++ natStr count ++
  " different commit message options for the following changes. Each should be on a separate line numbered 1, 2, 3, etc. Vary the style and approach:\n1. A concise version (max 50 characters)\n2. A detailed version (with scope and context)".data ++
  "\n3. ".data ++ (if 2 < count then techText else []) ++
  "\n\nGit diff:\n".data

/-- The full Claude `single_request` prompt. -/
def claudeMultiPrompt (prompt : JStr) (count : Nat) (diff : JStr) : JStr :=
  prompt ++ claudeMultiPromptMid count ++ diff

/-- Per-style system prompt of the Claude `style` branch (fresh string, no
shared mutation). -/
def claudeStyleSystem (prompt instr : JStr) : JStr := prompt ++ instrSep ++ instr

/-- The in-`try` fallback of the Claude multi generator: one single-message
attempt wrapped as a one-element list. -/
def claudeSingleWrap (o : ClaudeOracle) (cfgTemp : ℚ) (prompt diff : JStr) :
    Except JsErr (List JStr) :=
  match generateCommitWithClaude o cfgTemp prompt diff with
  | .ok s => .ok [s]
  | .error e => .error e

/-- The `try` block of `generateMultipleCommitsWithClaude`; a non-text block
in the `single_request` branch falls through to the single generation. -/
def claudeMultiTryBlock (o : ClaudeOracle) (cfgTemp : ℚ) (prompt diff : JStr)
    (count : Nat) (strategy : JStr) : Except JsErr (List JStr) :=
  if strategy = "single_request".data then
    match o claudeFixedSystem (claudeMultiPrompt prompt count diff) (7/10) with
    | .error e => .error e
    | .ok (.text t) => .ok (parseNumbered t count)
    | .ok .nonText => claudeSingleWrap o cfgTemp prompt diff
  else if strategy = "temperature".data then
    match promiseAll ((temperatures.take count).map
        (fun t => o prompt (claudeUserMsg diff) t)) with
    | .error e => .error e
    | .ok bs => .ok (bs.map claudeExtract)
  else if strategy = "style".data then
    match promiseAll ((styleList.take count).map
        (fun instr => o (claudeStyleSystem prompt instr) (claudeUserMsg diff) (7/10))) with
    | .error e => .error e
    | .ok bs => .ok (bs.map claudeExtract)
  else claudeSingleWrap o cfgTemp prompt diff

/-- Model of `generateMultipleCommitsWithClaude`. -/
def generateMultipleCommitsWithClaude (o : ClaudeOracle) (cfgTemp : ℚ)
    (prompt diff : JStr) (count : Nat) (strategy : JStr) :
    Except JsErr (List JStr) :=
  match claudeMultiTryBlock o cfgTemp prompt diff count strategy with
  | .ok r => .ok r
  | .error e =>
    match generateCommitWithClaude o cfgTemp prompt diff with
    | .ok s => .ok [s]
    | .error _ => .error e

/-- A Gemini request: the message parts sent and the temperature; the
response text is a non-null string. -/
abbrev GeminiOracle (ε : Type) := List JStr → ℚ → Except ε JStr

/-- `messages.map(msg => msg.content).join('\n')`. -/
def joinedContents (msgs : List ChatMessage) : JStr :=
  List.intercalate "\n".data (msgs.map ChatMessage.content)

/-- Model of `GeminiAPI`: sends the content of every turn as parts. -/
def GeminiAPI {ε : Type} (o : GeminiOracle ε) (cfgTemp : ℚ)
    (msgs : List ChatMessage) : Except ε JStr :=
  o (msgs.map ChatMessage.content) cfgTemp

/-- The `try` block of `generateMultipleCommitsWithGemini`. -/
def geminiMultiTryBlock {ε : Type} (o : GeminiOracle ε) (cfgTemp : ℚ)
    (msgs : List ChatMessage) (count : Nat) (strategy : JStr) :
    Except ε (List JStr) :=
  if strategy = "single_request".data then
    match o [joinedContents msgs ++ multiOptionsTail count] (7/10) with
    | .error e => .error e
    | .ok t => .ok (parseNumbered t count)
  else if strategy = "temperature".data then
    match promiseAll ((temperatures.take count).map
        (fun t => o [joinedContents msgs] t)) with
    | .error e => .error e
    | .ok ts => .ok (ts.map trimOrErr)
  else if strategy = "style".data then
    match promiseAll ((styleList.take count).map
        (fun instr => o [joinedContents msgs ++ instrSep ++ instr] (7/10))) with
    | .error e => .error e
    | .ok ts => .ok (ts.map trimOrErr)
  else
    match GeminiAPI o cfgTemp msgs with
    | .error e => .error e
    | .ok s => .ok [jsStrOr s errMsg]

/-- Model of `generateMultipleCommitsWithGemini`. -/
def generateMultipleCommitsWithGemini {ε : Type} (o : GeminiOracle ε) (cfgTemp : ℚ)
    (msgs : List ChatMessage) (count : Nat) (strategy : JStr) :
    Except ε (List JStr) :=
  match geminiMultiTryBlock o cfgTemp msgs count strategy with
  | .ok r => .ok r
  | .error e =>
    match GeminiAPI o cfgTemp msgs with
    | .ok s => .ok [jsStrOr s errMsg]
    | .error _ => .error e

/-- The three diff scopes. -/
inductive DiffMode where
  | staged
  | unstaged
  | all
deriving DecidableEq, Repr

/-- The mode name as interpolated into error messages. -/
def diffModeStr : DiffMode → JStr
  | .staged => "staged".data
  | .unstaged => "unstaged".data
  | .all => "all".data

/-- The mode-specific no-changes message chosen by the `switch`. -/
def noChangesMessage : DiffMode → JStr
  | .staged => "No changes staged for commit".data
  | .unstaged => "No unstaged changes found".data
  | .all => "No changes found".data

/-- Result shape of the diff retrieval functions. -/
structure DiffResult where
  diff : JStr
  error : Option JStr
deriving DecidableEq, Repr

/-- Success path of `getDiffUnstaged` given the text `git.diff()` produced:
an empty diff is replaced by the placeholder sentence. -/
def getDiffUnstaged (gitOut : JStr) : DiffResult :=
  ⟨jsStrOr gitOut "No unstaged changes.".data, none⟩

/-- JavaScript truthiness of the optional error string. -/
def jsTruthy (o : Option JStr) : Bool :=
  match o with
  | none => false
  | some s => !(s == [])

/-- The empty-diff precondition of `generateCommitMsg`:
the diff is falsy, or includes `No changes`, or trims to the empty string. -/
def diffPrecondFails (diff : JStr) : Bool :=
  (diff == []) || jsIncludes diff "No changes".data || (jsTrim diff == [])

/-- Model of `generateCommitMessageChatCompletionPrompt`: the externally built
initial turns, an optional context turn, then the diff as a user turn. -/
def assembleMessages (initMsgs : List ChatMessage) (additionalContext diff : JStr) :
    List ChatMessage :=
  initMsgs ++
  (if additionalContext ≠ [] then
    [⟨"user".data, "Additional context for the changes:\n".data ++ additionalContext⟩]
  else []) ++
  [⟨"user".data, diff⟩]

/-- Model of `generateCommitMsg` up to the provider stage: the diff-error
check, the empty-diff precondition, prompt assembly, then the whole provider
dispatch abstracted as `gen` (the SCM input box is assumed present, its value
passed as `scmValue`). -/
def generateCommitMsg (gen : List ChatMessage → Except JStr JStr)
    (mode : DiffMode) (dr : DiffResult) (initMsgs : List ChatMessage)
    (scmValue : JStr) : Except JStr JStr :=
  if jsTruthy dr.error then
    .error ("Failed to get ".data ++ diffModeStr mode ++ " changes: ".data ++
      dr.error.getD [])
  else if diffPrecondFails dr.diff then
    .error (noChangesMessage mode)
  else
    gen (assembleMessages initMsgs (jsTrim scmValue) dr.diff)

/-- Modelled from the spec: the numbered-list parsing mode as §4.2 words it —
keep the lines whose trimmed form begins with an integer and a dot, strip the
numeric prefix, trim each, take at most `count`, and fall back to the whole
trimmed text when fewer than 2 lines match.  Used only to compare the source
parser against the description in the spec. -/
def specNumberedParse (raw : JStr) (count : Nat) : List JStr :=
  let matched := (splitLines (jsTrim raw)).filter (fun l => matchNumDot (jsTrim l))
  if matched.length < 2 then [jsTrim raw]
  else (matched.map (fun l => jsTrim (stripNumDot (jsTrim l)))).take count

theorem jsTrim_eq_nil_iff (l : JStr) : jsTrim l = [] ↔ l.all jsWs = true := by
  unfold jsTrim
  rw [List.reverse_eq_nil_iff, List.dropWhile_eq_nil_iff]
  constructor
  · intro h
    rw [List.all_eq_true]
    intro c hc
    have hsplit : c ∈ l.takeWhile jsWs ++ l.dropWhile jsWs := by
      rw [List.takeWhile_append_dropWhile]
      exact hc
    rcases List.mem_append.mp hsplit with h1 | h2
    · exact List.mem_takeWhile_imp h1
    · exact h c (List.mem_reverse.mpr h2)
  · intro h c hc
    have h2 : c ∈ l.dropWhile jsWs := List.mem_reverse.mp hc
    have h3 : c ∈ l := (List.dropWhile_sublist (p := jsWs) (l := l)).mem h2
    exact List.all_eq_true.mp h c h3

theorem promiseAll_map_ok {ε α : Type} (l : List α) :
    promiseAll (l.map (Except.ok (ε := ε))) = .ok l := by
  induction l with
  | nil => rfl
  | cons a rest ih => simp [promiseAll, ih]

theorem promiseAll_ok_length {ε α : Type} :
    ∀ {l : List (Except ε α)} {rs : List α}, promiseAll l = .ok rs → rs.length = l.length := by
  intro l
  induction l with
  | nil =>
    intro rs h
    simp [promiseAll] at h
    simp [← h]
  | cons x xs ih =>
    intro rs h
    cases x with
    | error e => simp [promiseAll] at h
    | ok a =>
      cases hxs : promiseAll xs with
      | error e => simp [promiseAll, hxs] at h
      | ok rest =>
        simp [promiseAll, hxs] at h
        subst h
        simp [ih hxs]



theorem leadsWith_append_self (p b : JStr) : leadsWith p (p ++ b) = true := by
  induction p with
  | nil => rfl
  | cons c cs ih => simp [leadsWith, ih]

theorem leadsWith_extend (p : JStr) :
    ∀ (s b : JStr), leadsWith p s = true → leadsWith p (s ++ b) = true := by
  induction p with
  | nil => intro s b _; rfl
  | cons c cs ih =>
    intro s b h
    cases s with
    | nil => simp [leadsWith] at h
    | cons d ds =>
      simp [leadsWith] at h ⊢
      exact ⟨h.1, ih ds b h.2⟩

theorem jsIncludes_nil_pat (s : JStr) : jsIncludes s [] = true := by
  induction s with
  | nil => rfl
  | cons c rest ih => simp [jsIncludes, leadsWith]

theorem jsIncludes_of_leadsWith (s pat : JStr) (h : leadsWith pat s = true) :
    jsIncludes s pat = true := by
  cases s with
  | nil =>
    cases pat with
    | nil => rfl
    | cons _ _ => simp [leadsWith] at h
  | cons c rest => simp [jsIncludes, h]

theorem jsIncludes_append_left (a b pat : JStr) (h : jsIncludes a pat = true) :
    jsIncludes (a ++ b) pat = true := by
  induction a with
  | nil =>
    have hpat : pat = [] := by simpa [jsIncludes, List.isEmpty_iff] using h
    subst hpat
    exact jsIncludes_nil_pat b
  | cons c rest ih =>
    simp only [jsIncludes, Bool.or_eq_true] at h
    rcases h with h | h
    · exact jsIncludes_of_leadsWith _ _ (leadsWith_extend pat (c :: rest) b h)
    · have := ih h
      simp only [List.cons_append, jsIncludes, Bool.or_eq_true]
      exact Or.inr this

theorem jsIncludes_append_right (a b pat : JStr) (h : jsIncludes b pat = true) :
    jsIncludes (a ++ b) pat = true := by
  induction a with
  | nil => simpa using h
  | cons c rest ih =>
    simp only [List.cons_append, jsIncludes, Bool.or_eq_true]
    exact Or.inr ih

theorem jsIncludes_self_append (pat b : JStr) : jsIncludes (pat ++ b) pat = true :=
  jsIncludes_of_leadsWith _ _ (leadsWith_append_self pat b)

theorem jsIncludes_self (pat : JStr) : jsIncludes pat pat = true := by
  have := jsIncludes_self_append pat []
  simpa using this



theorem temperatures_take_length (count : Nat) :
    (temperatures.take count).length = min count 3 := by
  simp [temperatures, List.length_take]

theorem styleList_take_length (count : Nat) :
    (styleList.take count).length = min count 3 := by
  simp [styleList, List.length_take]

theorem styleStep_fold_fst_length (msgs : List ChatMessage) :
    ∀ (l : List JStr) (acc : List (List ChatMessage) × JStr),
      ((l.foldl (styleStep msgs) acc).1).length = acc.1.length + l.length := by
  intro l
  induction l with
  | nil => intro acc; simp
  | cons instr rest ih =>
    intro acc
    rw [List.foldl_cons, ih]
    simp [styleStep]
    omega

theorem styledRequests_fst_length (msgs : List ChatMessage) (count : Nat) :
    ((styledRequestsOpenAI msgs count).1).length = min count 3 := by
  unfold styledRequestsOpenAI
  cases findSystemContent msgs with
  | some c0 =>
    simp only [styleStep_fold_fst_length]
    simp [styleList]
  | none => simp [styleList]

theorem parseNumbered_length (raw : JStr) (count : Nat) (hc : 1 ≤ count) :
    1 ≤ (parseNumbered raw count).length ∧ (parseNumbered raw count).length ≤ count := by
  unfold parseNumbered
  simp only []
  split
  · next h =>
    constructor
    · omega
    · simp [List.length_take]
  · simpa using hc



theorem openAITry_temperature {ε : Type} (o : OpenAIOracle ε) (cfgTemp : ℚ)
    (msgs : List ChatMessage) (count : Nat) :
    openAIMultiTryBlock o cfgTemp msgs count "temperature".data =
      (match promiseAll ((temperatures.take count).map (fun t => o msgs t)) with
       | .error e => .error e
       | .ok rs => .ok (rs.map respTrimOrErr)) := by
  unfold openAIMultiTryBlock
  rw [if_neg (by decide), if_pos rfl]

theorem openAITry_style {ε : Type} (o : OpenAIOracle ε) (cfgTemp : ℚ)
    (msgs : List ChatMessage) (count : Nat) :
    openAIMultiTryBlock o cfgTemp msgs count "style".data =
      (match promiseAll ((styledRequestsOpenAI msgs count).1.map (fun ms => o ms (7/10))) with
       | .error e => .error e
       | .ok rs => .ok (rs.map respTrimOrErr)) := by
  unfold openAIMultiTryBlock
  rw [if_neg (by decide), if_neg (by decide), if_pos rfl]

theorem openAITry_single {ε : Type} (o : OpenAIOracle ε) (cfgTemp : ℚ)
    (msgs : List ChatMessage) (count : Nat) :
    openAIMultiTryBlock o cfgTemp msgs count "single_request".data =
      (match o (modifyLastOpenAI msgs count) (7/10) with
       | .error e => .error e
       | .ok c => .ok (parseNumbered (jsOrElse c []) count)) := by
  unfold openAIMultiTryBlock
  rw [if_pos rfl]



theorem claudeTry_temperature (o : ClaudeOracle) (cfgTemp : ℚ) (prompt diff : JStr)
    (count : Nat) :
    claudeMultiTryBlock o cfgTemp prompt diff count "temperature".data =
      (match promiseAll ((temperatures.take count).map
          (fun t => o prompt (claudeUserMsg diff) t)) with
       | .error e => .error e
       | .ok bs => .ok (bs.map claudeExtract)) := by
  unfold claudeMultiTryBlock
  rw [if_neg (by decide), if_pos rfl]

theorem claudeTry_style (o : ClaudeOracle) (cfgTemp : ℚ) (prompt diff : JStr)
    (count : Nat) :
    claudeMultiTryBlock o cfgTemp prompt diff count "style".data =
      (match promiseAll ((styleList.take count).map
          (fun instr => o (claudeStyleSystem prompt instr) (claudeUserMsg diff) (7/10))) with
       | .error e => .error e
       | .ok bs => .ok (bs.map claudeExtract)) := by
  unfold claudeMultiTryBlock
  rw [if_neg (by decide), if_neg (by decide), if_pos rfl]

theorem claudeTry_single (o : ClaudeOracle) (cfgTemp : ℚ) (prompt diff : JStr)
    (count : Nat) :
    claudeMultiTryBlock o cfgTemp prompt diff count "single_request".data =
      (match o claudeFixedSystem (claudeMultiPrompt prompt count diff) (7/10) with
       | .error e => .error e
       | .ok (.text t) => .ok (parseNumbered t count)
       | .ok .nonText => claudeSingleWrap o cfgTemp prompt diff) := by
  unfold claudeMultiTryBlock
  rw [if_pos rfl]

theorem geminiTry_temperature {ε : Type} (o : GeminiOracle ε) (cfgTemp : ℚ)
    (msgs : List ChatMessage) (count : Nat) :
    geminiMultiTryBlock o cfgTemp msgs count "temperature".data =
      (match promiseAll ((temperatures.take count).map
          (fun t => o [joinedContents msgs] t)) with
       | .error e => .error e
       | .ok ts => .ok (ts.map trimOrErr)) := by
  unfold geminiMultiTryBlock
  rw [if_neg (by decide), if_pos rfl]

theorem geminiTry_style {ε : Type} (o : GeminiOracle ε) (cfgTemp : ℚ)
    (msgs : List ChatMessage) (count : Nat) :
    geminiMultiTryBlock o cfgTemp msgs count "style".data =
      (match promiseAll ((styleList.take count).map
          (fun instr => o [joinedContents msgs ++ instrSep ++ instr] (7/10))) with
       | .error e => .error e
       | .ok ts => .ok (ts.map trimOrErr)) := by
  unfold geminiMultiTryBlock
  rw [if_neg (by decide), if_neg (by decide), if_pos rfl]

theorem geminiTry_single {ε : Type} (o : GeminiOracle ε) (cfgTemp : ℚ)
    (msgs : List ChatMessage) (count : Nat) :
    geminiMultiTryBlock o cfgTemp msgs count "single_request".data =
      (match o [joinedContents msgs ++ multiOptionsTail count] (7/10) with
       | .error e => .error e
       | .ok t => .ok (parseNumbered t count)) := by
  unfold geminiMultiTryBlock
  rw [if_pos rfl]



theorem openAITry_ok_length {ε : Type} (o : OpenAIOracle ε) (cfgTemp : ℚ)
    (msgs : List ChatMessage) (count : Nat) (strategy : JStr) (r0 : List JStr)
    (hc : 1 ≤ count)
    (hs : strategy = "temperature".data ∨ strategy = "style".data ∨
      strategy = "single_request".data)
    (h : openAIMultiTryBlock o cfgTemp msgs count strategy = .ok r0) :
    1 ≤ r0.length ∧ r0.length ≤ count := by
  rcases hs with hs | hs | hs
  · subst hs
    rw [openAITry_temperature] at h
    cases hpa : promiseAll ((temperatures.take count).map (fun t => o msgs t)) with
    | error e => rw [hpa] at h; simp at h
    | ok rs =>
      rw [hpa] at h
      simp only [Except.ok.injEq] at h
      subst h
      have hlen := promiseAll_ok_length hpa
      rw [List.length_map, hlen, List.length_map, temperatures_take_length]
      omega
  · subst hs
    rw [openAITry_style] at h
    cases hpa : promiseAll ((styledRequestsOpenAI msgs count).1.map (fun ms => o ms (7/10))) with
    | error e => rw [hpa] at h; simp at h
    | ok rs =>
      rw [hpa] at h
      simp only [Except.ok.injEq] at h
      subst h
      have hlen := promiseAll_ok_length hpa
      rw [List.length_map, hlen, List.length_map, styledRequests_fst_length]
      omega
  · subst hs
    rw [openAITry_single] at h
    cases ho : o (modifyLastOpenAI msgs count) (7/10) with
    | error e => rw [ho] at h; simp at h
    | ok c =>
      rw [ho] at h
      simp only [Except.ok.injEq] at h
      subst h
      exact parseNumbered_length _ _ hc

theorem generateMultipleCommitsWithOpenAI_ok_length {ε : Type} (o : OpenAIOracle ε)
    (cfgTemp : ℚ) (msgs : List ChatMessage) (count : Nat) (strategy : JStr)
    (r : List JStr) (hc : 1 ≤ count)
    (hs : strategy = "temperature".data ∨ strategy = "style".data ∨
      strategy = "single_request".data)
    (h : generateMultipleCommitsWithOpenAI o cfgTemp msgs count strategy = .ok r) :
    1 ≤ r.length ∧ r.length ≤ count := by
  unfold generateMultipleCommitsWithOpenAI at h
  cases htry : openAIMultiTryBlock o cfgTemp msgs count strategy with
  | ok r0 =>
    rw [htry] at h
    simp only [Except.ok.injEq] at h
    subst h
    exact openAITry_ok_length o cfgTemp msgs count strategy r0 hc hs htry
  | error e =>
    rw [htry] at h
    cases hcg : ChatGPTAPI o cfgTemp (openAIMessagesAfter msgs count strategy) with
    | ok c =>
      rw [hcg] at h
      simp only [Except.ok.injEq] at h
      subst h
      simpa using hc
    | error e2 => rw [hcg] at h; simp at h



theorem claudeSingleWrap_ok_length (o : ClaudeOracle) (cfgTemp : ℚ) (prompt diff : JStr)
    (r0 : List JStr) (h : claudeSingleWrap o cfgTemp prompt diff = .ok r0) :
    r0.length = 1 := by
  unfold claudeSingleWrap at h
  cases hg : generateCommitWithClaude o cfgTemp prompt diff with
  | ok s => rw [hg] at h; simp only [Except.ok.injEq] at h; subst h; rfl
  | error e => rw [hg] at h; simp at h

theorem claudeTry_ok_length (o : ClaudeOracle) (cfgTemp : ℚ) (prompt diff : JStr)
    (count : Nat) (strategy : JStr) (r0 : List JStr) (hc : 1 ≤ count)
    (hs : strategy = "temperature".data ∨ strategy = "style".data ∨
      strategy = "single_request".data)
    (h : claudeMultiTryBlock o cfgTemp prompt diff count strategy = .ok r0) :
    1 ≤ r0.length ∧ r0.length ≤ count := by
  rcases hs with hs | hs | hs
  · subst hs
    rw [claudeTry_temperature] at h
    cases hpa : promiseAll ((temperatures.take count).map
        (fun t => o prompt (claudeUserMsg diff) t)) with
    | error e => rw [hpa] at h; simp at h
    | ok bs =>
      rw [hpa] at h
      simp only [Except.ok.injEq] at h
      subst h
      have hlen := promiseAll_ok_length hpa
      rw [List.length_map, hlen, List.length_map, temperatures_take_length]
      omega
  · subst hs
    rw [claudeTry_style] at h
    cases hpa : promiseAll ((styleList.take count).map
        (fun instr => o (claudeStyleSystem prompt instr) (claudeUserMsg diff) (7/10))) with
    | error e => rw [hpa] at h; simp at h
    | ok bs =>
      rw [hpa] at h
      simp only [Except.ok.injEq] at h
      subst h
      have hlen := promiseAll_ok_length hpa
      rw [List.length_map, hlen, List.length_map, styleList_take_length]
      omega
  · subst hs
    rw [claudeTry_single] at h
    cases ho : o claudeFixedSystem (claudeMultiPrompt prompt count diff) (7/10) with
    | error e => rw [ho] at h; simp at h
    | ok b =>
      rw [ho] at h
      cases b with
      | text t =>
        simp only [Except.ok.injEq] at h
        subst h
        exact parseNumbered_length _ _ hc
      | nonText =>
        have := claudeSingleWrap_ok_length o cfgTemp prompt diff r0 h
        omega

theorem generateMultipleCommitsWithClaude_ok_length (o : ClaudeOracle) (cfgTemp : ℚ)
    (prompt diff : JStr) (count : Nat) (strategy : JStr) (r : List JStr)
    (hc : 1 ≤ count)
    (hs : strategy = "temperature".data ∨ strategy = "style".data ∨
      strategy = "single_request".data)
    (h : generateMultipleCommitsWithClaude o cfgTemp prompt diff count strategy = .ok r) :
    1 ≤ r.length ∧ r.length ≤ count := by
  unfold generateMultipleCommitsWithClaude at h
  cases htry : claudeMultiTryBlock o cfgTemp prompt diff count strategy with
  | ok r0 =>
    rw [htry] at h
    simp only [Except.ok.injEq] at h
    subst h
    exact claudeTry_ok_length o cfgTemp prompt diff count strategy r0 hc hs htry
  | error e =>
    rw [htry] at h
    cases hg : generateCommitWithClaude o cfgTemp prompt diff with
    | ok s =>
      rw [hg] at h
      simp only [Except.ok.injEq] at h
      subst h
      simpa using hc
    | error e2 => rw [hg] at h; simp at h

theorem geminiTry_ok_length {ε : Type} (o : GeminiOracle ε) (cfgTemp : ℚ)
    (msgs : List ChatMessage) (count : Nat) (strategy : JStr) (r0 : List JStr)
    (hc : 1 ≤ count)
    (hs : strategy = "temperature".data ∨ strategy = "style".data ∨
      strategy = "single_request".data)
    (h : geminiMultiTryBlock o cfgTemp msgs count strategy = .ok r0) :
    1 ≤ r0.length ∧ r0.length ≤ count := by
  rcases hs with hs | hs | hs
  · subst hs
    rw [geminiTry_temperature] at h
    cases hpa : promiseAll ((temperatures.take count).map
        (fun t => o [joinedContents msgs] t)) with
    | error e => rw [hpa] at h; simp at h
    | ok ts =>
      rw [hpa] at h
      simp only [Except.ok.injEq] at h
      subst h
      have hlen := promiseAll_ok_length hpa
      rw [List.length_map, hlen, List.length_map, temperatures_take_length]
      omega
  · subst hs
    rw [geminiTry_style] at h
    cases hpa : promiseAll ((styleList.take count).map
        (fun instr => o [joinedContents msgs ++ instrSep ++ instr] (7/10))) with
    | error e => rw [hpa] at h; simp at h
    | ok ts =>
      rw [hpa] at h
      simp only [Except.ok.injEq] at h
      subst h
      have hlen := promiseAll_ok_length hpa
      rw [List.length_map, hlen, List.length_map, styleList_take_length]
      omega
  · subst hs
    rw [geminiTry_single] at h
    cases ho : o [joinedContents msgs ++ multiOptionsTail count] (7/10) with
    | error e => rw [ho] at h; simp at h
    | ok t =>
      rw [ho] at h
      simp only [Except.ok.injEq] at h
      subst h
      exact parseNumbered_length _ _ hc

theorem generateMultipleCommitsWithGemini_ok_length {ε : Type} (o : GeminiOracle ε)
    (cfgTemp : ℚ) (msgs : List ChatMessage) (count : Nat) (strategy : JStr)
    (r : List JStr) (hc : 1 ≤ count)
    (hs : strategy = "temperature".data ∨ strategy = "style".data ∨
      strategy = "single_request".data)
    (h : generateMultipleCommitsWithGemini o cfgTemp msgs count strategy = .ok r) :
    1 ≤ r.length ∧ r.length ≤ count := by
  unfold generateMultipleCommitsWithGemini at h
  cases htry : geminiMultiTryBlock o cfgTemp msgs count strategy with
  | ok r0 =>
    rw [htry] at h
    simp only [Except.ok.injEq] at h
    subst h
    exact geminiTry_ok_length o cfgTemp msgs count strategy r0 hc hs htry
  | error e =>
    rw [htry] at h
    cases hg : GeminiAPI o cfgTemp msgs with
    | ok s =>
      rw [hg] at h
      simp only [Except.ok.injEq] at h
      subst h
      simpa using hc
    | error e2 => rw [hg] at h; simp at h

/-- C1: for `count ≥ 1` and strategy `temperature`, when every fan-out request
succeeds (the i-th issued at the i-th temperature of the fixed ladder
`[0.3, 0.7, 0.9]`, answering `cs[i]`), the multi-candidate generation of each
generation succeeds with exactly `min count 3` candidates, the i-th being the
parse of the i-th response. -/
theorem C1_temperature_ladder {ε : Type} (count : Nat) (hcount : 1 ≤ count)
    (oO : OpenAIOracle ε) (cfgO : ℚ) (msgs : List ChatMessage) (cs : List (Option JStr))
    (hO : (temperatures.take count).map (fun t => oO msgs t) = cs.map Except.ok)
    (oC : ClaudeOracle) (cfgC : ℚ) (prompt diff : JStr) (bs : List ClaudeBlock)
    (hC : (temperatures.take count).map (fun t => oC prompt (claudeUserMsg diff) t)
      = bs.map Except.ok)
    (oG : GeminiOracle ε) (cfgG : ℚ) (gmsgs : List ChatMessage) (ts : List JStr)
    (hG : (temperatures.take count).map (fun t => oG [joinedContents gmsgs] t)
      = ts.map Except.ok) :
    (generateMultipleCommitsWithOpenAI oO cfgO msgs count "temperature".data
        = .ok (cs.map respTrimOrErr) ∧ cs.length = min count 3)
    ∧ (generateMultipleCommitsWithClaude oC cfgC prompt diff count "temperature".data
        = .ok (bs.map claudeExtract) ∧ bs.length = min count 3)
    ∧ (generateMultipleCommitsWithGemini oG cfgG gmsgs count "temperature".data
        = .ok (ts.map trimOrErr) ∧ ts.length = min count 3) := by
  have hpaO : promiseAll ((temperatures.take count).map (fun t => oO msgs t)) = .ok cs := by
    rw [hO]; exact promiseAll_map_ok cs
  have hpaC : promiseAll ((temperatures.take count).map
      (fun t => oC prompt (claudeUserMsg diff) t)) = .ok bs := by
    rw [hC]; exact promiseAll_map_ok bs
  have hpaG : promiseAll ((temperatures.take count).map
      (fun t => oG [joinedContents gmsgs] t)) = .ok ts := by
    rw [hG]; exact promiseAll_map_ok ts
  have hlenO : cs.length = min count 3 := by
    have := congrArg List.length hO
    simp only [List.length_map, temperatures_take_length] at this
    omega
  have hlenC : bs.length = min count 3 := by
    have := congrArg List.length hC
    simp only [List.length_map, temperatures_take_length] at this
    omega
  have hlenG : ts.length = min count 3 := by
    have := congrArg List.length hG
    simp only [List.length_map, temperatures_take_length] at this
    omega
  refine ⟨⟨?_, hlenO⟩, ⟨?_, hlenC⟩, ⟨?_, hlenG⟩⟩
  · unfold generateMultipleCommitsWithOpenAI
    rw [openAITry_temperature, hpaO]
  · unfold generateMultipleCommitsWithClaude
    rw [claudeTry_temperature, hpaC]
  · unfold generateMultipleCommitsWithGemini
    rw [geminiTry_temperature, hpaG]



theorem C1_temperature_ladder_witness :
    (generateMultipleCommitsWithOpenAI (ε := Nat) (fun _ _ => .ok (some "m".data)) (7/10) [] 5
        "temperature".data
      = .ok (([some "m".data, some "m".data, some "m".data]).map respTrimOrErr)
      ∧ ([some "m".data, some "m".data, some "m".data] : List (Option JStr)).length = min 5 3)
    ∧ (generateMultipleCommitsWithClaude (fun _ _ _ => .ok (.text "m".data)) (7/10)
        "P".data "D".data 5 "temperature".data
      = .ok (([ClaudeBlock.text "m".data, .text "m".data, .text "m".data]).map claudeExtract)
      ∧ ([ClaudeBlock.text "m".data, .text "m".data, .text "m".data]).length = min 5 3)
    ∧ (generateMultipleCommitsWithGemini (ε := Nat) (fun _ _ => .ok "m".data) (7/10) [] 5
        "temperature".data
      = .ok ((["m".data, "m".data, "m".data] : List JStr).map trimOrErr)
      ∧ (["m".data, "m".data, "m".data] : List JStr).length = min 5 3) :=
  C1_temperature_ladder 5 (by decide)
    (fun _ _ => .ok (some "m".data)) (7/10) [] [some "m".data, some "m".data, some "m".data] rfl
    (fun _ _ _ => .ok (.text "m".data)) (7/10) "P".data "D".data
    [ClaudeBlock.text "m".data, .text "m".data, .text "m".data] rfl
    (fun _ _ => .ok "m".data) (7/10) [] ["m".data, "m".data, "m".data] rfl



/-- C2: whenever the `try` block of the multi-candidate generation of a provider
fails, the call performs exactly one single-message retry on the same
provider: if the retry succeeds the call returns the one-element candidate set
built from its result, and if the retry fails the original error is re-raised. -/
theorem C2_fallback_original_error {ε : Type}
    (oO : OpenAIOracle ε) (cfgO : ℚ) (msgs : List ChatMessage) (countO : Nat)
    (stratO : JStr) (eO : ε)
    (hO : openAIMultiTryBlock oO cfgO msgs countO stratO = .error eO)
    (oC : ClaudeOracle) (cfgC : ℚ) (prompt diff : JStr) (countC : Nat)
    (stratC : JStr) (eC : JsErr)
    (hC : claudeMultiTryBlock oC cfgC prompt diff countC stratC = .error eC)
    (oG : GeminiOracle ε) (cfgG : ℚ) (gmsgs : List ChatMessage) (countG : Nat)
    (stratG : JStr) (eG : ε)
    (hG : geminiMultiTryBlock oG cfgG gmsgs countG stratG = .error eG) :
    (generateMultipleCommitsWithOpenAI oO cfgO msgs countO stratO =
      match ChatGPTAPI oO cfgO (openAIMessagesAfter msgs countO stratO) with
      | .ok c => .ok [jsOrElse c errMsg]
      | .error _ => .error eO)
    ∧ (generateMultipleCommitsWithClaude oC cfgC prompt diff countC stratC =
      match generateCommitWithClaude oC cfgC prompt diff with
      | .ok s => .ok [s]
      | .error _ => .error eC)
    ∧ (generateMultipleCommitsWithGemini oG cfgG gmsgs countG stratG =
      match GeminiAPI oG cfgG gmsgs with
      | .ok s => .ok [jsStrOr s errMsg]
      | .error _ => .error eG) := by
  refine ⟨?_, ?_, ?_⟩
  · unfold generateMultipleCommitsWithOpenAI
    rw [hO]
  · unfold generateMultipleCommitsWithClaude
    rw [hC]
  · unfold generateMultipleCommitsWithGemini
    rw [hG]

theorem C2_fallback_original_error_witness :
    (generateMultipleCommitsWithOpenAI (ε := Nat) (fun _ _ => .error 3) (7/10)
        [⟨"user".data, "d".data⟩] 3 "temperature".data =
      match ChatGPTAPI (ε := Nat) (fun _ _ => .error 3) (7/10)
          (openAIMessagesAfter [⟨"user".data, "d".data⟩] 3 "temperature".data) with
      | .ok c => .ok [jsOrElse c errMsg]
      | .error _ => .error 3)
    ∧ (generateMultipleCommitsWithClaude (fun _ _ _ => .error ⟨some 429, none, "r".data⟩)
        (7/10) "P".data "D".data 3 "temperature".data =
      match generateCommitWithClaude (fun _ _ _ => .error ⟨some 429, none, "r".data⟩)
          (7/10) "P".data "D".data with
      | .ok s => .ok [s]
      | .error _ => .error ⟨some 429, none, "r".data⟩)
    ∧ (generateMultipleCommitsWithGemini (ε := Nat) (fun _ _ => .error 7) (7/10)
        [⟨"user".data, "d".data⟩] 3 "temperature".data =
      match GeminiAPI (ε := Nat) (fun _ _ => .error 7) (7/10) [⟨"user".data, "d".data⟩] with
      | .ok s => .ok [jsStrOr s errMsg]
      | .error _ => .error 7) :=
  C2_fallback_original_error
    (fun _ _ => .error 3) (7/10) [⟨"user".data, "d".data⟩] 3 "temperature".data 3 rfl
    (fun _ _ _ => .error ⟨some 429, none, "r".data⟩) (7/10) "P".data "D".data 3
    "temperature".data ⟨some 429, none, "r".data⟩ rfl
    (fun _ _ => .error 7) (7/10) [⟨"user".data, "d".data⟩] 3 "temperature".data 7 rfl



/-- C3 counterexample: a Claude `temperature` fan-out whose single response is
a whitespace-only text block succeeds with the empty-string candidate, not the
`"Error generating message"` placeholder the claim requires of every
provider. -/
theorem C3_claude_blank_not_replaced :
    generateMultipleCommitsWithClaude (fun _ _ _ => .ok (.text "  ".data)) (7/10)
      "P".data "D".data 1 "temperature".data = .ok [[]]
    ∧ generateMultipleCommitsWithClaude (fun _ _ _ => .ok (.text "  ".data)) (7/10)
      "P".data "D".data 1 "temperature".data ≠ .ok [errMsg] := by
  have h1 : generateMultipleCommitsWithClaude (fun _ _ _ => .ok (.text "  ".data)) (7/10)
      "P".data "D".data 1 "temperature".data = .ok [[]] := rfl
  refine ⟨h1, ?_⟩
  rw [h1]
  intro h
  exact absurd (Except.ok.inj h) (by decide)

/-- C3 amended: independent-texts parsing preserves length for every provider.
For OpenAI and Gemini each text is trimmed and an absent, empty or
whitespace-only text becomes the placeholder; for Claude a text block is
merely trimmed (a blank one yields the empty string) and the placeholder is
used exactly for non-text blocks. -/
theorem C3_independent_texts_parsing (texts : List (Option JStr)) (gts : List JStr)
    (bs : List ClaudeBlock) :
    (texts.map respTrimOrErr).length = texts.length
    ∧ texts.map respTrimOrErr = texts.map (fun c =>
        match c with
        | none => errMsg
        | some t => if t.all jsWs then errMsg else jsTrim t)
    ∧ (gts.map trimOrErr).length = gts.length
    ∧ gts.map trimOrErr = gts.map (fun t => if t.all jsWs then errMsg else jsTrim t)
    ∧ (bs.map claudeExtract).length = bs.length
    ∧ bs.map claudeExtract = bs.map (fun b =>
        match b with
        | .text t => jsTrim t
        | .nonText => errMsg) := by
  have key : ∀ t : JStr, trimOrErr t = if t.all jsWs then errMsg else jsTrim t := by
    intro t
    unfold trimOrErr jsStrOr
    exact if_congr (by rw [jsTrim_eq_nil_iff]) rfl rfl
  refine ⟨List.length_map _ _, ?_, List.length_map _ _, ?_, List.length_map _ _, ?_⟩
  · apply List.map_congr_left
    intro c _
    cases c with
    | none => rfl
    | some t => exact key t
  · apply List.map_congr_left
    intro t _
    exact key t
  · apply List.map_congr_left
    intro b _
    cases b <;> rfl



theorem afterDigitsDot_dropWhile : ∀ l : JStr, afterDigitsDot l = true →
    ∃ rest, l.dropWhile Char.isDigit = '.' :: rest := by
  intro l
  induction l with
  | nil => intro h; simp [afterDigitsDot] at h
  | cons c r ih =>
    intro h
    by_cases hd : c.isDigit
    · rw [afterDigitsDot, if_pos hd] at h
      obtain ⟨rest, hrest⟩ := ih h
      refine ⟨rest, ?_⟩
      rw [List.dropWhile_cons]
      simp [hd, hrest]
    · rw [afterDigitsDot, if_neg hd] at h
      have hc : c = '.' := by simpa using h
      refine ⟨r, ?_⟩
      rw [List.dropWhile_cons]
      simp [hd, hc]

theorem stripNumDot_of_match (l : JStr) (h : matchNumDot l = true) :
    l.takeWhile Char.isDigit ≠ []
    ∧ ∃ rest, l = l.takeWhile Char.isDigit ++ '.' :: rest
      ∧ stripNumDot l = rest.dropWhile jsWs := by
  cases l with
  | nil => simp [matchNumDot] at h
  | cons c r =>
    have h' := h
    rw [matchNumDot, Bool.and_eq_true] at h'
    obtain ⟨hd, had⟩ := h'
    obtain ⟨rest, hrest⟩ := afterDigitsDot_dropWhile r had
    have hdw : (c :: r).dropWhile Char.isDigit = '.' :: rest := by
      rw [List.dropWhile_cons]
      simp [hd, hrest]
    refine ⟨?_, rest, ?_, ?_⟩
    · rw [List.takeWhile_cons, if_pos hd]
      simp
    · conv_lhs => rw [← List.takeWhile_append_dropWhile (p := Char.isDigit) (l := c :: r)]
      rw [hdw]
    · unfold stripNumDot
      rw [if_pos h, hdw]
      simp

theorem stripNumDot_of_no_match (l : JStr) (h : matchNumDot l = false) :
    stripNumDot l = l := by
  unfold stripNumDot
  rw [if_neg]
  simp [h]

/-- C4 amended: numbered-list parsing keeps, in order, at most `count` of the
lines whose trimmed form matches the number-dot pattern; a matching line is
stripped of its numeric prefix exactly when the line itself (untrimmed) begins
with the pattern, a line with leading whitespace being kept trimmed but
unstripped; whenever fewer than 2 parsed lines survive the truncation to
`count`, the whole trimmed text is the single candidate; the result is never
empty. -/
theorem C4_numbered_parsing (raw : JStr) (count : Nat) :
    parseNumbered raw count ≠ []
    ∧ (2 ≤ ((numberedCandidates raw).take count).length →
        parseNumbered raw count = (numberedCandidates raw).take count)
    ∧ (((numberedCandidates raw).take count).length < 2 →
        parseNumbered raw count = [jsTrim raw])
    ∧ (∀ l : JStr, matchNumDot l = true →
        l.takeWhile Char.isDigit ≠ [] ∧
        ∃ rest, l = l.takeWhile Char.isDigit ++ '.' :: rest ∧
          stripNumDot l = rest.dropWhile jsWs)
    ∧ (∀ l : JStr, matchNumDot l = false → stripNumDot l = l) := by
  refine ⟨?_, ?_, ?_, stripNumDot_of_match, stripNumDot_of_no_match⟩
  · unfold parseNumbered
    simp only []
    split
    · next h =>
      intro hnil
      rw [hnil] at h
      simp at h
    · simp
  · intro h
    unfold parseNumbered
    simp only []
    rw [if_pos h]
  · intro h
    unfold parseNumbered
    simp only []
    rw [if_neg (by omega)]

/-- C4 counterexample: on numbered lines indented by two spaces the parser
keeps the lines but cannot strip the numeric prefix of any line after the
first (the anchored replace runs on the untrimmed line), while the
description in the spec demands every kept line be stripped. -/
theorem C4_leading_whitespace_not_stripped :
    parseNumbered "  1. Fix bug\n  2. Add feature".data 2
      = ["Fix bug".data, "2. Add feature".data]
    ∧ specNumberedParse "  1. Fix bug\n  2. Add feature".data 2
      = ["Fix bug".data, "Add feature".data]
    ∧ parseNumbered "  1. Fix bug\n  2. Add feature".data 2
      ≠ specNumberedParse "  1. Fix bug\n  2. Add feature".data 2 := by
  refine ⟨by decide, by decide, by decide⟩

theorem C4_numbered_parsing_witness :
    parseNumbered "1. Fix bug\n2. Add feature\n3. Refactor core".data 3 ≠ []
    ∧ parseNumbered "1. Fix bug\n2. Add feature\n3. Refactor core".data 3
      = (numberedCandidates "1. Fix bug\n2. Add feature\n3. Refactor core".data).take 3
    ∧ parseNumbered "Just a plain sentence.".data 3
      = [jsTrim "Just a plain sentence.".data]
    ∧ stripNumDot "no numbering".data = "no numbering".data :=
  ⟨(C4_numbered_parsing "1. Fix bug\n2. Add feature\n3. Refactor core".data 3).1,
   (C4_numbered_parsing "1. Fix bug\n2. Add feature\n3. Refactor core".data 3).2.1 (by decide),
   (C4_numbered_parsing "Just a plain sentence.".data 3).2.2.1 (by decide),
   ((C4_numbered_parsing "".data 0).2.2.2.2 "no numbering".data (by decide))⟩



set_option maxRecDepth 20000 in
/-- C5 counterexample: at `count = 2` the Claude `single_request` prompt still
contains the third numbered line `3. ` (empty instruction), because the
numbering sits outside the conditional; the technical instruction text itself
is indeed absent. -/
theorem C5_claude_third_number_always_present :
    jsIncludes (claudeMultiPrompt "P".data 2 "D".data) "\n3. ".data = true
    ∧ jsIncludes (claudeMultiPrompt "P".data 2 "D".data) techText = false :=
  ⟨by decide, by decide⟩

set_option maxRecDepth 20000 in
/-- C5 amended: the technical-variant instruction appears in the OpenAI/Gemini
augmentation and in the Claude prompt exactly when `count > 2`; OpenAI and
Gemini emit no third numbered line at all for `count ≤ 2`, while the Claude
prompt always contains the bare numbered line `3. `. -/
theorem C5_third_variant_conditional (count : Nat) (prompt diff : JStr) :
    (jsIncludes (multiOptionsTail count) techText = true ↔ 2 < count)
    ∧ (jsIncludes (claudeMultiPromptMid count) techText = true ↔ 2 < count)
    ∧ jsIncludes (claudeMultiPromptMid count) "\n3. ".data = true
    ∧ (count ≤ 2 → jsIncludes (multiOptionsTail count) "3. ".data = false)
    ∧ (2 < count → jsIncludes (claudeMultiPrompt prompt count diff) techText = true) := by
  have hsplit : ("3. A technical version (focusing on implementation details)".data : JStr)
      = "3. ".data ++ techText := by decide
  have htail : 2 < count → jsIncludes (multiOptionsTail count) techText = true := by
    intro hgt
    unfold multiOptionsTail
    rw [if_pos hgt, hsplit]
    apply jsIncludes_append_right
    exact jsIncludes_append_right _ _ _ (jsIncludes_self techText)
  have hmid : 2 < count → jsIncludes (claudeMultiPromptMid count) techText = true := by
    intro hgt
    unfold claudeMultiPromptMid
    rw [if_pos hgt]
    apply jsIncludes_append_left
    apply jsIncludes_append_right
    exact jsIncludes_self techText
  refine ⟨⟨?_, htail⟩, ⟨?_, hmid⟩, ?_, ?_, ?_⟩
  · intro h
    by_contra hc
    push_neg at hc
    interval_cases count <;> revert h <;> decide
  · intro h
    by_contra hc
    push_neg at hc
    interval_cases count <;> revert h <;> decide
  · unfold claudeMultiPromptMid
    apply jsIncludes_append_left
    apply jsIncludes_append_left
    apply jsIncludes_append_right
    exact jsIncludes_self _
  · intro hle
    interval_cases count <;> decide
  · intro hgt
    unfold claudeMultiPrompt
    apply jsIncludes_append_left
    apply jsIncludes_append_right
    exact hmid hgt



theorem C5_third_variant_conditional_witness :
    jsIncludes (multiOptionsTail 3) techText = true
    ∧ jsIncludes (multiOptionsTail 2) "3. ".data = false
    ∧ jsIncludes (claudeMultiPrompt "P".data 3 "D".data) techText = true :=
  ⟨(C5_third_variant_conditional 3 "P".data "D".data).1.mpr (by decide),
   (C5_third_variant_conditional 2 "P".data "D".data).2.2.2.1 (by decide),
   (C5_third_variant_conditional 3 "P".data "D".data).2.2.2.2 (by decide)⟩

set_option maxRecDepth 20000 in
/-- C6: evaluation of the `style` fan-out derivation at a conversation with a
system turn.  The system content of the second request carries BOTH the first
and the second style instruction, and the conversation of the caller is left
mutated:
the shallow copy shares the system-message object across the per-style
copies. -/
theorem C6_style_mutation_shared_system :
    (styledRequestsOpenAI [⟨"system".data, "S".data⟩, ⟨"user".data, "U".data⟩] 2).1
      = [[⟨"system".data, "S".data ++ instrSep ++ styleConcise⟩, ⟨"user".data, "U".data⟩],
         [⟨"system".data, "S".data ++ instrSep ++ styleConcise ++ instrSep ++ styleDetailed⟩,
          ⟨"user".data, "U".data⟩]]
    ∧ (styledRequestsOpenAI [⟨"system".data, "S".data⟩, ⟨"user".data, "U".data⟩] 2).2
      = [⟨"system".data, "S".data ++ instrSep ++ styleConcise ++ instrSep ++ styleDetailed⟩,
         ⟨"user".data, "U".data⟩]
    ∧ (styledRequestsOpenAI [⟨"system".data, "S".data⟩, ⟨"user".data, "U".data⟩] 2).2
      ≠ [⟨"system".data, "S".data⟩, ⟨"user".data, "U".data⟩]
    ∧ jsIncludes ("S".data ++ instrSep ++ styleConcise ++ instrSep ++ styleDetailed)
        styleConcise = true :=
  ⟨by decide, by decide, by decide, by decide⟩



/-- C7: for a retrieved diff that is empty, whitespace-only, or contains the
substring `No changes`, `generateCommitMsg` fails with the mode-specific
no-changes message; the result does not depend on the provider stage `gen`,
which is therefore never consulted. -/
theorem C7_empty_diff_precondition (mode : DiffMode) (dr : DiffResult)
    (initMsgs : List ChatMessage) (scmValue : JStr)
    (hnoerr : dr.error = none)
    (h : dr.diff = [] ∨ dr.diff.all jsWs = true ∨ jsIncludes dr.diff "No changes".data = true) :
    ∀ gen : List ChatMessage → Except JStr JStr,
      generateCommitMsg gen mode dr initMsgs scmValue = .error (noChangesMessage mode) := by
  intro gen
  have hfail : diffPrecondFails dr.diff = true := by
    unfold diffPrecondFails
    rcases h with h | h | h
    · simp [h]
    · have : jsTrim dr.diff = [] := (jsTrim_eq_nil_iff _).mpr h
      simp [this]
    · simp [h]
  unfold generateCommitMsg
  rw [hnoerr]
  simp only [jsTruthy]
  rw [if_neg (by simp), if_pos hfail]

theorem C7_empty_diff_precondition_witness :
    generateCommitMsg (fun _ => .ok "x".data) .staged ⟨"  ".data, none⟩ [] [] =
      .error (noChangesMessage .staged) :=
  C7_empty_diff_precondition .staged ⟨"  ".data, none⟩ [] [] rfl
    (Or.inr (Or.inl (by decide))) (fun _ => .ok "x".data)

/-- C9: with no unstaged changes `git diff` yields the empty string, so
`getDiffUnstaged` substitutes the placeholder `No unstaged changes.`; that
placeholder does not contain the sentinel `No changes`, passes the
precondition, and is handed to the provider stage as the diff turn of the
assembled conversation. -/
theorem C9_unstaged_placeholder_not_caught :
    (getDiffUnstaged []).diff = "No unstaged changes.".data
    ∧ jsIncludes (getDiffUnstaged []).diff "No changes".data = false
    ∧ diffPrecondFails (getDiffUnstaged []).diff = false
    ∧ ∀ (gen : List ChatMessage → Except JStr JStr) (initMsgs : List ChatMessage)
        (scmValue : JStr),
        generateCommitMsg gen .unstaged (getDiffUnstaged []) initMsgs scmValue =
          gen (assembleMessages initMsgs (jsTrim scmValue) "No unstaged changes.".data) := by
  refine ⟨by decide, by decide, by decide, ?_⟩
  intro gen initMsgs scmValue
  unfold generateCommitMsg
  rw [if_neg (by simp [getDiffUnstaged, jsTruthy]), if_neg (by decide)]
  rfl



/-- C8 counterexample: at `count = 0` the `temperature` fan-out truncates the
ladder to nothing and a fully successful call returns the empty candidate
set — a success with zero candidates. -/
theorem C8_count_zero_empty_success :
    generateMultipleCommitsWithOpenAI (ε := Nat) (fun _ _ => .ok (some "msg".data))
      (7/10) [⟨"user".data, "d".data⟩] 0 "temperature".data = .ok [] := rfl

/-- C8 amended: for every `count ≥ 1` and each of the three recognized
strategies, a multi-candidate call of any provider that returns without error
returns between 1 and `count` candidates. -/
theorem C8_candidate_count_bounds {ε : Type} (count : Nat) (hc : 1 ≤ count)
    (strategy : JStr)
    (hs : strategy = "temperature".data ∨ strategy = "style".data ∨
      strategy = "single_request".data)
    (oO : OpenAIOracle ε) (cfgO : ℚ) (msgs : List ChatMessage) (rO : List JStr)
    (hrO : generateMultipleCommitsWithOpenAI oO cfgO msgs count strategy = .ok rO)
    (oC : ClaudeOracle) (cfgC : ℚ) (prompt diff : JStr) (rC : List JStr)
    (hrC : generateMultipleCommitsWithClaude oC cfgC prompt diff count strategy = .ok rC)
    (oG : GeminiOracle ε) (cfgG : ℚ) (gmsgs : List ChatMessage) (rG : List JStr)
    (hrG : generateMultipleCommitsWithGemini oG cfgG gmsgs count strategy = .ok rG) :
    (1 ≤ rO.length ∧ rO.length ≤ count)
    ∧ (1 ≤ rC.length ∧ rC.length ≤ count)
    ∧ (1 ≤ rG.length ∧ rG.length ≤ count) :=
  ⟨generateMultipleCommitsWithOpenAI_ok_length oO cfgO msgs count strategy rO hc hs hrO,
   generateMultipleCommitsWithClaude_ok_length oC cfgC prompt diff count strategy rC hc hs hrC,
   generateMultipleCommitsWithGemini_ok_length oG cfgG gmsgs count strategy rG hc hs hrG⟩

theorem C8_candidate_count_bounds_witness :
    ((1:Nat) ≤ ([ "m".data, "m".data ] : List JStr).length
      ∧ ([ "m".data, "m".data ] : List JStr).length ≤ 2)
    ∧ ((1:Nat) ≤ ([ "m".data, "m".data ] : List JStr).length
      ∧ ([ "m".data, "m".data ] : List JStr).length ≤ 2)
    ∧ ((1:Nat) ≤ ([ "m".data, "m".data ] : List JStr).length
      ∧ ([ "m".data, "m".data ] : List JStr).length ≤ 2) :=
  C8_candidate_count_bounds (ε := Nat) 2 (by decide) "temperature".data (Or.inl rfl)
    (fun _ _ => .ok (some "m".data)) (7/10) [] ["m".data, "m".data] rfl
    (fun _ _ _ => .ok (.text "m".data)) (7/10) "P".data "D".data ["m".data, "m".data] rfl
    (fun _ _ => .ok "m".data) (7/10) [] ["m".data, "m".data] rfl

/-- C10: with `count = 1` and strategy `single_request`, even a response that
is a well-formed numbered list (2 or more matching lines) produces the whole
trimmed response as the single candidate: the parsed list is truncated to one
element before the fewer-than-2 test, which therefore always fails. -/
theorem C10_count_one_whole_text {ε : Type} (o : OpenAIOracle ε) (cfgTemp : ℚ)
    (msgs : List ChatMessage) (raw : JStr)
    (hresp : o (modifyLastOpenAI msgs 1) (7/10) = .ok (some raw))
    (hwell : 2 ≤ (numberedCandidates raw).length) :
    generateMultipleCommitsWithOpenAI o cfgTemp msgs 1 "single_request".data
      = .ok [jsTrim raw]
    ∧ parseNumbered raw 1 = [jsTrim raw] := by
  have hparse : parseNumbered raw 1 = [jsTrim raw] := by
    unfold parseNumbered
    simp only []
    rw [if_neg]
    rw [List.length_take]
    omega
  have hor : jsOrElse (some raw) [] = raw := by
    simp only [jsOrElse, jsStrOr]
    split
    · next h => exact h.symm
    · rfl
  refine ⟨?_, hparse⟩
  unfold generateMultipleCommitsWithOpenAI
  rw [openAITry_single, hresp]
  simp [hor, hparse]

theorem C10_count_one_whole_text_witness :
    generateMultipleCommitsWithOpenAI (ε := Nat)
      (fun _ _ => .ok (some "1. Fix bug\n2. Add feature".data)) (7/10)
      [⟨"user".data, "d".data⟩] 1 "single_request".data
      = .ok [jsTrim "1. Fix bug\n2. Add feature".data]
    ∧ parseNumbered "1. Fix bug\n2. Add feature".data 1
      = [jsTrim "1. Fix bug\n2. Add feature".data] :=
  C10_count_one_whole_text (fun _ _ => .ok (some "1. Fix bug\n2. Add feature".data))
    (7/10) [⟨"user".data, "d".data⟩] "1. Fix bug\n2. Add feature".data rfl (by decide)

end AICommit
